import Mathlib

/-!
Verification of the RC-car repository (`rci_zero_2w.py` server and
`dualsence_controller.py` client) against its natural-language
specification.  The Python sources are shallowly embedded below: pure
computations become Lean functions over `ℚ` / `ℤ`, each Socket.IO or HTTP
handler becomes a function from its inputs (and the ambient shared state,
which the handlers may read) to its response together with the list of
servo actuation calls it performs, and the client's mutable object state
is threaded explicitly.
-/

namespace RcCar

/-- A pair of PWM duty cycles, one per servo channel, as set by
`pwm_left.ChangeDutyCycle` / `pwm_right.ChangeDutyCycle`. -/
structure Duty where
  left : ℚ
  right : ℚ
  deriving Repr, DecidableEq

/-- Embeds `servo_stop` (rci_zero_2w.py:118-120): both channels to 7.5. -/
def servo_stop : Duty :=
  { left := 7.5, right := 7.5 }

/-- Embeds `servo_forward` (rci_zero_2w.py:122-126). -/
def servo_forward (speed : ℚ) : Duty :=
  { left := 7.5 + speed / 100 * 2.5, right := 7.5 - speed / 100 * 2.5 }

/-- Embeds `servo_backward` (rci_zero_2w.py:128-132). -/
def servo_backward (speed : ℚ) : Duty :=
  { left := 7.5 - speed / 100 * 2.5, right := 7.5 + speed / 100 * 2.5 }

/-- Embeds `servo_turn_left` (rci_zero_2w.py:134-138). -/
def servo_turn_left (speed : ℚ) : Duty :=
  { left := 7.5 - speed / 100 * 2.5, right := 7.5 - speed / 100 * 2.5 }

/-- Embeds `servo_turn_right` (rci_zero_2w.py:140-144). -/
def servo_turn_right (speed : ℚ) : Duty :=
  { left := 7.5 + speed / 100 * 2.5, right := 7.5 + speed / 100 * 2.5 }

/-- One call to a `servo_*` function, recorded by the handler embeddings. -/
inductive ServoCall where
  | forward (speed : ℚ)
  | backward (speed : ℚ)
  | turnLeft (speed : ℚ)
  | turnRight (speed : ℚ)
  | stop
  deriving Repr, DecidableEq

/-- The duty pair written by one servo call.  Every `servo_*` function
writes both channels, so a call overwrites the whole actuator state. -/
def run_call : ServoCall → Duty
  | .forward s => servo_forward s
  | .backward s => servo_backward s
  | .turnLeft s => servo_turn_left s
  | .turnRight s => servo_turn_right s
  | .stop => servo_stop

/-- Actuator state after running a sequence of servo calls from `init`:
each call fully overwrites the previous duty pair. -/
def run_calls (init : Duty) (calls : List ServoCall) : Duty :=
  calls.foldl (fun _ c => run_call c) init

/-- Both channels of a duty pair lie in the servo band [5, 10]. -/
def duty_in_range (d : Duty) : Prop :=
  5 ≤ d.left ∧ d.left ≤ 10 ∧ 5 ≤ d.right ∧ d.right ≤ 10

instance (d : Duty) : Decidable (duty_in_range d) := by
  unfold duty_in_range; infer_instance

/-- A JSON value, as produced by `jsonify` in the Flask handlers. -/
inductive Json where
  | num (q : ℚ)
  | bool (b : Bool)
  | str (s : String)
  | null
  | obj (fields : List (String × Json))
  | arr (xs : List Json)

/-- Top-level keys of a JSON object (in order); `[]` for non-objects. -/
def json_keys : Json → List String
  | .obj fields => fields.map Prod.fst
  | _ => []

/-- The `shared_state['gps']` sub-dictionary (rci_zero_2w.py:89-95). -/
structure GpsState where
  latitude : Option ℚ
  longitude : Option ℚ
  altitude : Option ℚ
  speed : Option ℚ
  satellites : ℕ
  deriving Repr, DecidableEq

/-- A saved home position.  `shared_state['home_position']` starts as
`None` and no code under src/ ever writes it, so its populated shape
follows the spec's HomeMark (latitude, longitude). -/
structure HomeMark where
  latitude : ℚ
  longitude : ℚ
  deriving Repr, DecidableEq

/-- The module-level `shared_state` dictionary (rci_zero_2w.py:83-97). -/
structure SharedState where
  distance : ℚ
  obstacle_warning : Bool
  lights_on : Bool
  auto_avoid : Bool
  is_recording : Bool
  gps : GpsState
  home_position : Option HomeMark
  deriving Repr, DecidableEq

/-- The initial `shared_state` value (rci_zero_2w.py:83-97). -/
def initial_shared_state : SharedState :=
  { distance := 0, obstacle_warning := false, lights_on := false,
    auto_avoid := false, is_recording := false,
    gps := { latitude := none, longitude := none, altitude := none,
             speed := none, satellites := 0 },
    home_position := none }

/-- JSON of an optional number: `None` serialises to `null`. -/
def opt_num_json : Option ℚ → Json
  | none => .null
  | some q => .num q

/-- JSON serialisation of the gps sub-dictionary. -/
def gps_to_json (g : GpsState) : Json :=
  .obj [("latitude", opt_num_json g.latitude),
        ("longitude", opt_num_json g.longitude),
        ("altitude", opt_num_json g.altitude),
        ("speed", opt_num_json g.speed),
        ("satellites", .num g.satellites)]

/-- JSON serialisation of `home_position`. -/
def home_to_json : Option HomeMark → Json
  | none => .null
  | some h => .obj [("latitude", .num h.latitude), ("longitude", .num h.longitude)]

/-- JSON serialisation of the whole `shared_state` dictionary, key for
key in declaration order (rci_zero_2w.py:83-97). -/
def shared_state_to_json (st : SharedState) : Json :=
  .obj [("distance", .num st.distance),
        ("obstacle_warning", .bool st.obstacle_warning),
        ("lights_on", .bool st.lights_on),
        ("auto_avoid", .bool st.auto_avoid),
        ("is_recording", .bool st.is_recording),
        ("gps", gps_to_json st.gps),
        ("home_position", home_to_json st.home_position)]

/-- Embeds the `/status` route `full_status` (rci_zero_2w.py:170-173):
`return jsonify(shared_state)`.  The handler only reads the shared
state, so the returned state component is the input unchanged. -/
def full_status (st : SharedState) : Json × SharedState :=
  (shared_state_to_json st, st)

/-- Embeds the port-5004 `/status` route `api_status`
(rci_zero_2w.py:921-928); `ts` stands for `datetime.now().isoformat()`. -/
def api_status (ts : String) (st : SharedState) : Json × SharedState :=
  (.obj [("success", .bool true), ("timestamp", .str ts),
         ("data", shared_state_to_json st)], st)

/-- Embeds the Socket.IO handler `full_command` (rci_zero_2w.py:175-191).
Inputs are the payload's `command` and `speed` fields (`data.get` yields
`none` / a default when absent); the ambient `shared_state` is passed in
because the spec claims the handler consults it — the source body reads
no shared state, only dispatches on `cmd`.  The result is the list of
servo calls performed. -/
def full_command (st : SharedState) (data_command : Option String)
    (data_speed : Option ℚ) : List ServoCall :=
  let cmd := data_command
  let speed := data_speed.getD 70
  if cmd = some "forward" then [.forward speed]
  else if cmd = some "backward" then [.backward speed]
  else if cmd = some "left" then [.turnLeft speed]
  else if cmd = some "right" then [.turnRight speed]
  else if cmd = some "stop" then [.stop]
  else []

/-- A JSON field of the `/control` request body: a Python `int`, or any
other JSON value (which fails `isinstance(speed, int)`). -/
inductive JsonVal where
  | jint (n : ℤ)
  | jother
  deriving Repr, DecidableEq

/-- The parsed JSON body of a POST `/control` request: the optional
`command` and `speed` fields. -/
structure ControlRequest where
  command : Option String
  speed : Option JsonVal
  deriving Repr, DecidableEq

/-- The JSON-relevant part of a Flask response from `api_control`:
success flag, HTTP status code, and the error message when present. -/
structure ApiResponse where
  success : Bool
  httpStatus : ℕ
  error : Option String
  deriving Repr, DecidableEq

/-- The `valid_commands` list (rci_zero_2w.py:944). -/
def valid_commands : List String :=
  ["forward", "backward", "left", "right", "stop"]

/-- Embeds the POST `/control` handler `api_control`
(rci_zero_2w.py:930-973).  `body = none` models `request.get_json()`
returning no JSON.  Returns the response together with the servo calls
performed. -/
def api_control (body : Option ControlRequest) : ApiResponse × List ServoCall :=
  match body with
  | none =>
      ({ success := false, httpStatus := 400,
         error := some "No JSON data provided" }, [])
  | some data =>
      let cmd := data.command
      let speed := data.speed.getD (.jint 70)
      let cmdValid := match cmd with
        | some c => valid_commands.contains c
        | none => false
      if cmdValid then
        match speed with
        | .jint n =>
            if n < 0 ∨ 100 < n then
              ({ success := false, httpStatus := 400,
                 error := some "Speed must be an integer between 0 and 100" }, [])
            else
              ({ success := true, httpStatus := 200, error := none },
                if cmd = some "forward" then [.forward (n : ℚ)]
                else if cmd = some "backward" then [.backward (n : ℚ)]
                else if cmd = some "left" then [.turnLeft (n : ℚ)]
                else if cmd = some "right" then [.turnRight (n : ℚ)]
                else if cmd = some "stop" then [.stop]
                else [])
        | .jother =>
            ({ success := false, httpStatus := 400,
               error := some "Speed must be an integer between 0 and 100" }, [])
      else
        ({ success := false, httpStatus := 400,
           error := some "Invalid command" }, [])

/-- The mutable fields of `DualSenseCarController` that the command path
touches (dualsence_controller.py:26-39). -/
structure ClientState where
  connected_to_car : Bool
  current_command : String
  current_speed : ℤ
  deriving Repr, DecidableEq

/-- The client state right after `__init__`
(dualsence_controller.py:26-39): not yet connected, command "stop",
speed 70. -/
def initial_client_state : ClientState :=
  { connected_to_car := false, current_command := "stop", current_speed := 70 }

/-- Embeds `send_command` (dualsence_controller.py:98-112).  Returns the
updated client state together with the list of `('command', …)` events
emitted on the socket. -/
def send_command (cs : ClientState) (command : String) (speed : Option ℤ) :
    ClientState × List (String × ℤ) :=
  if cs.connected_to_car = false then (cs, [])
  else
    let speed := speed.getD cs.current_speed
    if command ≠ cs.current_command ∨ speed ≠ cs.current_speed then
      ({ cs with current_command := command, current_speed := speed },
        [(command, speed)])
    else (cs, [])

/-- The joystick deadzone `self.deadzone`
(dualsence_controller.py:38-39). -/
def deadzone : ℤ := 20

/-- The speed computed by `process_joystick`
(dualsence_controller.py:153-155):
`min(100, int(((x_centered**2 + y_centered**2) ** 0.5 / 127) * 100))`.
For real r ≥ 0 and the integer 127, `int(r / 127 * 100)` is
`⌊√(10000·(xc² + yc²))⌋ / 127` with floor division, which `Nat.sqrt`
computes. -/
def joy_speed (x_centered y_centered : ℤ) : ℤ :=
  min 100
    ((Nat.sqrt (10000 * (x_centered.natAbs ^ 2 + y_centered.natAbs ^ 2)) / 127 : ℕ) : ℤ)

/-- Embeds `process_joystick` (dualsence_controller.py:142-169).  The
result is the single `send_command` invocation the body makes, as a
(command, optional explicit speed) pair, or `none` when the body falls
through every branch without calling `send_command`. -/
def process_joystick (x y : ℤ) : Option (String × Option ℤ) :=
  if ((x - 127).natAbs : ℤ) < deadzone ∧ ((y - 127).natAbs : ℤ) < deadzone then
    some ("stop", none)
  else
    let x_centered := x - 127
    let y_centered := -(y - 127)
    let speed := joy_speed x_centered y_centered
    if y_centered.natAbs > x_centered.natAbs then
      if y_centered > deadzone then some ("forward", some speed)
      else if y_centered < -deadzone then some ("backward", some speed)
      else none
    else
      if x_centered > deadzone then some ("right", some speed)
      else if x_centered < -deadzone then some ("left", some speed)
      else none

/-- An observable action of the client's `cleanup`. -/
inductive ClientEvent where
  | emit (command : String) (speed : ℤ)
  | sockDisconnect
  | controllerClose
  deriving Repr, DecidableEq

/-- Embeds `cleanup` (dualsence_controller.py:256-271): when connected,
`send_command('stop')` then `sio.disconnect()`; when the controller is
connected, close it.  Returns the final client state and the ordered
event trace. -/
def cleanup (cs : ClientState) (controller_connected : Bool) :
    ClientState × List ClientEvent :=
  let step1 : ClientState × List ClientEvent :=
    if cs.connected_to_car then
      let sc := send_command cs "stop" none
      (sc.1, (sc.2.map fun p => ClientEvent.emit p.1 p.2) ++ [ClientEvent.sockDisconnect])
    else (cs, [])
  if controller_connected then (step1.1, step1.2 ++ [ClientEvent.controllerClose])
  else step1

/-- An observable action of the server's shutdown path. -/
inductive ServerEvent where
  | servo (c : ServoCall)
  | gpioCleanup
  | stopRecording
  deriving Repr, DecidableEq

/-- Embeds the server's `finally` block (rci_zero_2w.py:1072-1076):
`servo_stop()`, then `GPIO.cleanup()`, then `picam2.stop_recording()`. -/
def server_shutdown : List ServerEvent :=
  [.servo .stop, .gpioCleanup, .stopRecording]

/-- Errors of the spec's Home Navigator start transition. -/
inductive NavError where
  | noHomeOrNoFix
  deriving Repr, DecidableEq

/-- States of the spec's Home Navigator relevant to the start
transition. -/
inductive NavMode where
  | idle
  | navigating
  deriving Repr, DecidableEq

/-- A valid GPS fix per the spec's glossary: a position reading with at
least one satellite. -/
def has_valid_fix (g : GpsState) : Bool :=
  g.latitude.isSome && g.longitude.isSome && decide (0 < g.satellites)

/-- Modelled from the spec: no return-home start operation exists in the
sources (src/ only declares `shared_state['home_position']` and the
client prints an L2 "return home" binding it never handles), so this
follows spec §4.4 — the start transition (Idle→Navigating) requires a
HomeMark and a current valid Position, otherwise it fails with
`NavigationError(NoHomeOrNoFix)` and stays Idle; a start while already
Navigating is a no-op.  Returns the outcome, the navigator state after
the call, and the shared state after the call. -/
def return_home_start (st : SharedState) (nav : NavMode) :
    Except NavError Unit × NavMode × SharedState :=
  match nav with
  | .navigating => (.ok (), .navigating, st)
  | .idle =>
      if st.home_position.isSome && has_valid_fix st.gps then
        (.ok (), .navigating, st)
      else
        (.error .noHomeOrNoFix, .idle, st)

/-- The speed argument carried by a servo call (`none` for stop). -/
def call_speed : ServoCall → Option ℚ
  | .forward s => some s
  | .backward s => some s
  | .turnLeft s => some s
  | .turnRight s => some s
  | .stop => none

/-- A shared state with the obstacle warning flag raised and avoidance
enabled, as produced when the warning is active. -/
def st_obstacle : SharedState :=
  { initial_shared_state with obstacle_warning := true, auto_avoid := true }

/-- A client state connected to the car with the initial stored command
"stop" at speed 70. -/
def cs_conn_stop : ClientState :=
  { connected_to_car := true, current_command := "stop", current_speed := 70 }

/-- A client state connected to the car while driving forward at
speed 80. -/
def cs_conn_fwd : ClientState :=
  { connected_to_car := true, current_command := "forward", current_speed := 80 }

end RcCar

namespace RcCar

/-- C4: for every speed in [0,100], `servo_forward speed` and
`servo_backward speed` are mirror images around the neutral duty 7.5:
forward's left duty equals backward's right duty, forward's right duty
equals backward's left duty, and each backward channel is the reflection
through 7.5 (that is, 15 minus) of the same forward channel. -/
theorem servo_forward_backward_mirror (speed : ℚ)
    (h0 : 0 ≤ speed) (h1 : speed ≤ 100) :
    (servo_forward speed).left = (servo_backward speed).right ∧
    (servo_forward speed).right = (servo_backward speed).left ∧
    (servo_backward speed).left = 15 - (servo_forward speed).left ∧
    (servo_backward speed).right = 15 - (servo_forward speed).right := by
  refine ⟨rfl, rfl, ?_, ?_⟩ <;>
    simp only [servo_forward, servo_backward] <;> ring

/-- Witness for C4 at speed 40. -/
theorem servo_forward_backward_mirror_witness :
    (servo_forward 40).left = (servo_backward 40).right ∧
    (servo_forward 40).right = (servo_backward 40).left ∧
    (servo_backward 40).left = 15 - (servo_forward 40).left ∧
    (servo_backward 40).right = 15 - (servo_forward 40).right :=
  servo_forward_backward_mirror 40 (by norm_num) (by norm_num)

/-- C5: a stop command sets both channels to the neutral duty 7.5,
regardless of the initial actuator state and of any sequence of prior
servo calls (any prior commands and speeds). -/
theorem servo_stop_neutral (init : Duty) (calls : List ServoCall) :
    run_calls init (calls ++ [ServoCall.stop]) = { left := 7.5, right := 7.5 } := by
  simp [run_calls, List.foldl_append, run_call, servo_stop]

/-- C9: for every speed in [0,100], each of the five drive functions
produces left and right duty cycles inside [5, 10]. -/
theorem servo_duty_range (speed : ℚ) (h0 : 0 ≤ speed) (h1 : speed ≤ 100) :
    duty_in_range servo_stop ∧
    duty_in_range (servo_forward speed) ∧
    duty_in_range (servo_backward speed) ∧
    duty_in_range (servo_turn_left speed) ∧
    duty_in_range (servo_turn_right speed) := by
  have hlo : 0 ≤ speed / 100 * 2.5 := by positivity
  have hhi : speed / 100 * 2.5 ≤ 2.5 := by
    rw [div_mul_eq_mul_div, mul_comm, mul_div_assoc]
    nlinarith
  refine ⟨?_, ?_, ?_, ?_, ?_⟩ <;>
    simp only [duty_in_range, servo_stop, servo_forward, servo_backward,
      servo_turn_left, servo_turn_right] <;>
    refine ⟨by linarith, by linarith, by linarith, by linarith⟩

/-- Helper: `api_control` performs no servo call on any failing response,
and every servo call it performs carries a speed in [0,100]. -/
theorem api_control_sound (body : Option ControlRequest) :
    ((api_control body).1.success = false → (api_control body).2 = []) ∧
    (∀ call ∈ (api_control body).2, ∀ q, call_speed call = some q →
      0 ≤ q ∧ q ≤ 100) := by
  obtain _ | ⟨cmd, sv⟩ := body
  · simp [api_control]
  · have key : ∀ n : ℤ, ¬ (n < 0 ∨ 100 < n) →
        ∀ call ∈ (if cmd = some "forward" then [ServoCall.forward (n : ℚ)]
          else if cmd = some "backward" then [ServoCall.backward (n : ℚ)]
          else if cmd = some "left" then [ServoCall.turnLeft (n : ℚ)]
          else if cmd = some "right" then [ServoCall.turnRight (n : ℚ)]
          else if cmd = some "stop" then [ServoCall.stop]
          else []),
          ∀ q, call_speed call = some q → 0 ≤ q ∧ q ≤ 100 := by
      intro n hn call hcall q hq
      push_neg at hn
      have hq0 : (0 : ℚ) ≤ (n : ℚ) := by exact_mod_cast hn.1
      have hq1 : ((n : ℚ)) ≤ 100 := by exact_mod_cast hn.2
      split_ifs at hcall <;>
        simp only [List.mem_singleton, List.not_mem_nil] at hcall <;>
        subst hcall <;>
        simp only [call_speed] at hq <;>
        first
          | exact Option.noConfusion hq
          | (injection hq with h; exact h ▸ ⟨hq0, hq1⟩)
    cases sv with
    | none =>
        simp only [api_control, Option.getD]
        split
        · rw [if_neg (show ¬ ((70 : ℤ) < 0 ∨ 100 < (70 : ℤ)) by omega)]
          exact ⟨fun h => absurd h (by simp), key 70 (by omega)⟩
        · simp
    | some jv =>
        cases jv with
        | jother => simp only [api_control]; split <;> simp
        | jint n =>
            simp only [api_control, Option.getD]
            split
            · by_cases hrange : n < 0 ∨ 100 < n
              · rw [if_pos hrange]
                exact ⟨fun _ => rfl, by simp⟩
              · rw [if_neg hrange]
                exact ⟨fun h => absurd h (by simp), key n hrange⟩
            · simp

/-- C1 counterexample: with `obstacle_warning = true` and
`auto_avoid = true`, a forward command with speed 70 is not rejected at
either boundary — `full_command` calls `servo_forward 70` and
`api_control` answers success and calls `servo_forward 70`. -/
theorem forward_obstacle_not_rejected_cex :
    st_obstacle.obstacle_warning = true ∧ st_obstacle.auto_avoid = true ∧
    full_command st_obstacle (some "forward") (some 70) = [ServoCall.forward 70] ∧
    (api_control (some { command := some "forward", speed := some (.jint 70) })).1.success
      = true ∧
    (api_control (some { command := some "forward", speed := some (.jint 70) })).2
      = [ServoCall.forward 70] := by
  refine ⟨rfl, rfl, rfl, ?_, ?_⟩ <;> norm_num [api_control, valid_commands]

/-- C1 amended: neither command boundary consults the obstacle state — a
forward request always reaches the Drive Actuator: `full_command`
dispatches `servo_forward speed` whatever the shared state is (its
result does not depend on the state), and `api_control` accepts any
forward request with an integer speed in [0,100] and calls
`servo_forward`. -/
theorem forward_dispatch_unconditional (st st' : SharedState) (speed : ℚ)
    (n : ℤ) (h0 : 0 ≤ n) (h1 : n ≤ 100) :
    full_command st (some "forward") (some speed) = [ServoCall.forward speed] ∧
    full_command st (some "forward") (some speed)
      = full_command st' (some "forward") (some speed) ∧
    (api_control (some { command := some "forward", speed := some (.jint n) })).1.success
      = true ∧
    (api_control (some { command := some "forward", speed := some (.jint n) })).2
      = [ServoCall.forward (n : ℚ)] := by
  have hr : ¬ (n < 0 ∨ 100 < n) := by omega
  have hapi : api_control (some { command := some "forward", speed := some (.jint n) })
      = ({ success := true, httpStatus := 200, error := none },
         [ServoCall.forward (n : ℚ)]) := by
    simp [api_control, valid_commands, hr]
  exact ⟨rfl, rfl, by rw [hapi], by rw [hapi]⟩

/-- Witness for the C1 amended theorem at speed 70 and obstacle state
with warning and avoidance both set. -/
theorem forward_dispatch_unconditional_witness :
    full_command st_obstacle (some "forward") (some 70) = [ServoCall.forward 70] ∧
    full_command st_obstacle (some "forward") (some 70)
      = full_command initial_shared_state (some "forward") (some 70) ∧
    (api_control (some { command := some "forward", speed := some (.jint 70) })).1.success
      = true ∧
    (api_control (some { command := some "forward", speed := some (.jint 70) })).2
      = [ServoCall.forward ((70 : ℤ) : ℚ)] :=
  forward_dispatch_unconditional st_obstacle initial_shared_state 70 70
    (by norm_num) (by norm_num)

/-- C3 counterexample: the socket boundary performs no clamping or
validation of the speed — `full_command` with speed 200 (outside
[0,100]) calls `servo_forward 200`, whose duty cycles leave the servo
band. -/
theorem full_command_unclamped_cex :
    full_command initial_shared_state (some "forward") (some 200)
      = [ServoCall.forward 200] ∧
    ¬ ((200 : ℚ) ≤ 100) ∧
    ¬ duty_in_range (run_call (ServoCall.forward 200)) := by
  refine ⟨rfl, by norm_num, ?_⟩
  simp [duty_in_range, run_call, servo_forward]
  norm_num

/-- C3 amended: a direction outside the five enumerated values is a
no-op at the socket boundary and a rejection with an error and no
actuation at the API boundary; the API boundary validates the speed to
an integer in [0,100] before any actuation (every servo call it makes
carries such a speed) — but the socket boundary passes the speed through
unvalidated. -/
theorem command_boundary_validation (st : SharedState) (c : Option String)
    (sp : Option ℚ) (body : Option ControlRequest) (cmd : Option String)
    (sv : Option JsonVal)
    (hc : c ≠ some "forward" ∧ c ≠ some "backward" ∧ c ≠ some "left" ∧
          c ≠ some "right" ∧ c ≠ some "stop")
    (hcmd : ∀ s, cmd = some s → s ∉ valid_commands) :
    full_command st c sp = [] ∧
    (api_control (some { command := cmd, speed := sv })).1
      = { success := false, httpStatus := 400, error := some "Invalid command" } ∧
    ((api_control body).1.success = false → (api_control body).2 = []) ∧
    (∀ call ∈ (api_control body).2, ∀ q, call_speed call = some q →
      0 ≤ q ∧ q ≤ 100) := by
  obtain ⟨h1, h2, h3, h4, h5⟩ := hc
  refine ⟨by simp [full_command, h1, h2, h3, h4, h5], ?_,
    (api_control_sound body).1, (api_control_sound body).2⟩
  simp only [api_control]
  cases cmd with
  | none => simp
  | some s =>
      have := hcmd s rfl
      simp_all [valid_commands]

/-- Witness for the C3 amended theorem with direction "spin" at both
boundaries and a concrete in-range API request. -/
theorem command_boundary_validation_witness :
    full_command initial_shared_state (some "spin") (some 70) = [] ∧
    (api_control (some { command := some "spin", speed := some (.jint 70) })).1
      = { success := false, httpStatus := 400, error := some "Invalid command" } ∧
    ((api_control (some { command := some "stop", speed := none })).1.success = false →
      (api_control (some { command := some "stop", speed := none })).2 = []) ∧
    (∀ call ∈ (api_control (some { command := some "stop", speed := none })).2,
      ∀ q, call_speed call = some q → 0 ≤ q ∧ q ≤ 100) :=
  command_boundary_validation initial_shared_state (some "spin") (some 70)
    (some { command := some "stop", speed := none }) (some "spin")
    (some (.jint 70)) (by refine ⟨?_, ?_, ?_, ?_, ?_⟩ <;> decide)
    (by intro s hs; injection hs with h; subst h; decide)

/-- C6 counterexample: the snapshot returned by `full_status` has
exactly the seven keys of `shared_state` — it contains no
navigation-active field under any spelling, so the claimed field set
\x7bdistance, obstacleWarning, lightsOn, avoidanceEnabled, isRecording,
position, hasHome, navigationActive\x7d is not all present. -/
theorem full_status_keys_cex :
    json_keys (full_status initial_shared_state).1
      = ["distance", "obstacle_warning", "lights_on", "auto_avoid",
         "is_recording", "gps", "home_position"] ∧
    "navigation_active" ∉ json_keys (full_status initial_shared_state).1 ∧
    "navigationActive" ∉ json_keys (full_status initial_shared_state).1 := by
  refine ⟨rfl, by decide, by decide⟩

/-- C6 amended: a status query returns the JSON snapshot of
`shared_state` with exactly the keys \x7bdistance, obstacle_warning,
lights_on, auto_avoid, is_recording, gps, home_position\x7d (there is no
navigation-active field), and leaves the shared state unchanged; the
API status endpoint wraps the same snapshot and also leaves the state
unchanged. -/
theorem full_status_snapshot (ts : String) (st : SharedState) :
    (full_status st).2 = st ∧
    (full_status st).1 = shared_state_to_json st ∧
    json_keys (full_status st).1
      = ["distance", "obstacle_warning", "lights_on", "auto_avoid",
         "is_recording", "gps", "home_position"] ∧
    (api_status ts st).2 = st ∧
    json_keys (api_status ts st).1 = ["success", "timestamp", "data"] :=
  ⟨rfl, rfl, rfl, rfl, rfl⟩

/-- Witness for C9 at speed 100. -/
theorem servo_duty_range_witness :
    duty_in_range servo_stop ∧
    duty_in_range (servo_forward 100) ∧
    duty_in_range (servo_backward 100) ∧
    duty_in_range (servo_turn_left 100) ∧
    duty_in_range (servo_turn_right 100) :=
  servo_duty_range 100 (by norm_num) (by norm_num)

/-- C2: starting return-home while no HomeMark is set fails with
`NoHomeOrNoFix`, the navigator remains Idle, and the shared state is
returned unmodified.  The start operation is absent from the sources
and is modelled from the spec as `return_home_start`. -/
theorem return_home_start_no_home (st : SharedState)
    (h : st.home_position = none) :
    return_home_start st .idle = (.error .noHomeOrNoFix, .idle, st) := by
  simp [return_home_start, h]

/-- Witness for C2 at the initial shared state, whose home position is
unset. -/
theorem return_home_start_no_home_witness :
    return_home_start initial_shared_state .idle
      = (.error .noHomeOrNoFix, .idle, initial_shared_state) :=
  return_home_start_no_home initial_shared_state rfl

/-- C7: while connected, `send_command` with the stored (command,
speed) pair emits nothing and leaves the stored state unchanged; with a
differing command or speed it emits exactly one command and stores the
new pair. -/
theorem send_command_dedup (cs : ClientState) (command : String) (speed : ℤ)
    (hconn : cs.connected_to_car = true) :
    (command = cs.current_command ∧ speed = cs.current_speed →
      send_command cs command (some speed) = (cs, [])) ∧
    (command ≠ cs.current_command ∨ speed ≠ cs.current_speed →
      send_command cs command (some speed)
        = ({ cs with current_command := command, current_speed := speed },
           [(command, speed)])) := by
  constructor
  · rintro ⟨h1, h2⟩
    simp [send_command, hconn, h1, h2]
  · intro h
    simp only [send_command, hconn, Option.getD_some]
    rw [if_neg (by simp), if_pos h]

/-- Witness for C7: a duplicate stop is suppressed, a new forward
command is emitted and stored. -/
theorem send_command_dedup_witness :
    send_command cs_conn_stop "stop" (some 70) = (cs_conn_stop, []) ∧
    send_command cs_conn_stop "forward" (some 80)
      = ({ cs_conn_stop with current_command := "forward", current_speed := 80 },
         [("forward", 80)]) :=
  ⟨(send_command_dedup cs_conn_stop "stop" 70 rfl).1 ⟨rfl, rfl⟩,
   (send_command_dedup cs_conn_stop "forward" 80 rfl).2 (Or.inl (by decide))⟩

/-- C8 counterexample: a connected client whose stored command is
already "stop" (the initial value) runs `cleanup` without any stop
command being sent — the deduplicating send suppresses it and the trace
is only the socket disconnect. -/
theorem cleanup_no_stop_cex :
    cs_conn_stop.connected_to_car = true ∧
    cleanup cs_conn_stop false = (cs_conn_stop, [ClientEvent.sockDisconnect]) := by
  exact ⟨rfl, by decide⟩

/-- C8 amended: when the client exits while connected and the stored
command is not already "stop", cleanup emits exactly one stop command
(at the stored speed) immediately before the socket disconnect; when
the stored command is already "stop" the deduplicating send suppresses
the emission.  The server issues `servo_stop` before the GPIO cleanup
on shutdown unconditionally. -/
theorem cleanup_stop_before_disconnect (cs : ClientState) (cc : Bool)
    (hconn : cs.connected_to_car = true) (hne : cs.current_command ≠ "stop") :
    (cleanup cs cc).2.take 2
      = [ClientEvent.emit "stop" cs.current_speed, ClientEvent.sockDisconnect] ∧
    server_shutdown = [.servo .stop, .gpioCleanup, .stopRecording] := by
  refine ⟨?_, rfl⟩
  have hsend : send_command cs "stop" none
      = ({ cs with current_command := "stop", current_speed := cs.current_speed },
         [("stop", cs.current_speed)]) := by
    simp only [send_command, hconn, Option.getD_none]
    rw [if_neg (by simp), if_pos (Or.inl (Ne.symm hne))]
  cases cc <;> simp [cleanup, hconn, hsend]

/-- Witness for the C8 amended theorem: a connected client driving
forward at speed 80. -/
theorem cleanup_stop_before_disconnect_witness :
    (cleanup cs_conn_fwd true).2.take 2
      = [ClientEvent.emit "stop" cs_conn_fwd.current_speed, ClientEvent.sockDisconnect] ∧
    server_shutdown = [.servo .stop, .gpioCleanup, .stopRecording] :=
  cleanup_stop_before_disconnect cs_conn_fwd true rfl (by decide)

/-- C10 counterexample: the reading (x, y) = (127, 107) lies in
[0,255]², is outside the deadzone (|y − 127| = 20 is not < 20), yet
`process_joystick` issues no command at all: the dominant centered axis
equals the deadzone bound exactly and every branch falls through. -/
theorem process_joystick_boundary_cex :
    ¬ ((((127 : ℤ) - 127).natAbs : ℤ) < deadzone ∧
       (((107 : ℤ) - 127).natAbs : ℤ) < deadzone) ∧
    process_joystick 127 107 = none := by
  exact ⟨by decide, by decide⟩

/-- C10 amended: inside the deadzone `process_joystick` issues exactly
one stop command; every directional command it issues is one of
forward/backward/left/right with an explicit speed in [0,100]; outside
the deadzone, no command is issued if and only if the larger
centered-axis magnitude equals the deadzone bound 20 exactly (otherwise
exactly one directional command is issued). -/
theorem process_joystick_cases (x y : ℤ) :
    ((((x - 127).natAbs : ℤ) < deadzone ∧ (((y - 127).natAbs : ℤ)) < deadzone) →
      process_joystick x y = some ("stop", none)) ∧
    (∀ cmd sp, process_joystick x y = some (cmd, some sp) →
      (cmd = "forward" ∨ cmd = "backward" ∨ cmd = "right" ∨ cmd = "left") ∧
      0 ≤ sp ∧ sp ≤ 100) ∧
    (¬ ((((x - 127).natAbs : ℤ) < deadzone ∧ (((y - 127).natAbs : ℤ)) < deadzone)) →
      (process_joystick x y = none ↔
        max (x - 127).natAbs (y - 127).natAbs = 20)) ∧
    (¬ ((((x - 127).natAbs : ℤ) < deadzone ∧ (((y - 127).natAbs : ℤ)) < deadzone)) →
      20 < max (x - 127).natAbs (y - 127).natAbs →
      ∃ cmd sp, process_joystick x y = some (cmd, some sp) ∧
        (cmd = "forward" ∨ cmd = "backward" ∨ cmd = "right" ∨ cmd = "left") ∧
        0 ≤ sp ∧ sp ≤ 100) := by
  have hsp : 0 ≤ joy_speed (x - 127) (-(y - 127)) ∧
      joy_speed (x - 127) (-(y - 127)) ≤ 100 := by
    unfold joy_speed; omega
  refine ⟨fun h => ?_, fun cmd sp hres => ?_, fun hdz => ?_, fun hdz hmax => ?_⟩
  · simp only [process_joystick]
    rw [if_pos h]
  · by_cases hdz : (((x - 127).natAbs : ℤ) < deadzone ∧
        (((y - 127).natAbs : ℤ)) < deadzone)
    · simp only [process_joystick] at hres
      rw [if_pos hdz] at hres
      simp at hres
    · simp only [process_joystick] at hres
      rw [if_neg hdz] at hres
      split_ifs at hres <;>
        simp only [Option.some.injEq, Prod.mk.injEq, reduceCtorEq] at hres <;>
        obtain ⟨hcmd, hspeed⟩ := hres <;>
        subst hcmd <;>
        exact ⟨by simp, hspeed ▸ hsp.1, hspeed ▸ hsp.2⟩
  · simp only [process_joystick]
    rw [if_neg hdz]
    simp only [Int.natAbs_neg]
    push_neg at hdz
    split_ifs <;>
      simp only [reduceCtorEq, false_iff, true_iff, eq_self_iff_true] <;>
      simp only [deadzone] at * <;>
      omega
  · simp only [process_joystick]
    rw [if_neg hdz]
    simp only [Int.natAbs_neg]
    split_ifs <;>
      first
        | exact ⟨_, _, rfl, by simp, hsp.1, hsp.2⟩
        | (exfalso; simp only [deadzone] at *; omega)

/-- Witness for the C10 amended theorem: the centred reading (130, 130)
yields the stop command, and the reading (200, 127), whose dominant
centered axis is 73 > 20, yields a directional command with an explicit
in-range speed. -/
theorem process_joystick_cases_witness :
    process_joystick 130 130 = some ("stop", none) ∧
    ∃ cmd sp, process_joystick 200 127 = some (cmd, some sp) ∧
      (cmd = "forward" ∨ cmd = "backward" ∨ cmd = "right" ∨ cmd = "left") ∧
      0 ≤ sp ∧ sp ≤ 100 :=
  ⟨(process_joystick_cases 130 130).1 (by decide),
   (process_joystick_cases 200 127).2.2.2 (by decide) (by decide)⟩

end RcCar
